import Mathlib

/-!
Verification development for the Yeti Bluesky Jetstream monitor (`yeti.py`).

The Python source is shallowly embedded: each embedded definition carries the
name of the source function it models and mirrors its control flow.  Python
strings are Lean `String`s, but every text operation is defined over
`String.data` so that all definitions evaluate by kernel reduction.  Python
`defaultdict(int)` counters are total functions `String → Nat`.  Wall-clock
instants are `Nat` parameters supplied explicitly where the source calls
`datetime.now()`.  Network collaborators (Google translate, Bluesky profile
lookup) are opaque request/response contracts in the source; they are embedded
as functions of an explicit outcome parameter covering success, timeout,
connection error and bad response.
-/

namespace Yeti

/-! ### Text primitives (Python `str` operations used by yeti.py) -/

/-- Helper for `strContains`: does `pat` occur contiguously in the character list? -/
def charsContains (pat : List Char) : List Char → Bool
  | [] => pat.isEmpty
  | c :: t => pat.isPrefixOf (c :: t) || charsContains pat t

/-- Python `pat in s` substring containment. -/
def strContains (s pat : String) : Bool :=
  charsContains pat.data s.data

/-- Python `s.lower()` (the keywords and posts in play are ASCII-compatible). -/
def strLower (s : String) : String :=
  ⟨s.data.map Char.toLower⟩

/-- Python `len(s)` (a character count). -/
def strLen (s : String) : Nat :=
  s.data.length

/-- Python `s[:n]`. -/
def strTake (s : String) (n : Nat) : String :=
  ⟨s.data.take n⟩

/-- Python `s.strip()`. -/
def strTrim (s : String) : String :=
  ⟨((s.data.dropWhile Char.isWhitespace).reverse.dropWhile Char.isWhitespace).reverse⟩

/-! ### Data model

`PostRecord` is the Bluesky post record (`commit.record` in a Jetstream
message): text, declared language tags, creation timestamp and the structured
annotation (facet) list.  A facet feature is a dict carrying a `$type`
discriminator and, depending on the type, a `tag` or `uri` value; absent keys
read as `""` through `dict.get(..., '')`. -/

structure Feature where
  ftype : String
  tag : String
  uri : String
deriving DecidableEq

structure Facet where
  features : List Feature
deriving DecidableEq

structure PostRecord where
  text : String
  langs : List String
  createdAt : String
  facets : List Facet
deriving DecidableEq

/-- A Jetstream post-create message, reduced to the fields yeti.py reads. -/
structure PostData where
  did : String
  record : PostRecord
deriving DecidableEq

/-! ### Constants (yeti.py lines 754-756) -/

def MAX_TEXT_LENGTH : Nat := 5000

/-! ### Validation functions -/

/-- Embeds `sanitize_text` (yeti.py lines 771-786): strip, then truncate to
`max_length` characters. -/
def sanitize_text (text : String) (max_length : Nat) : String :=
  if text = "" then ""
  else
    let t := strTrim text
    if max_length < strLen t then strTake t max_length else t

/-- Network-location part of an http(s) URL: the characters after `http://` or
`https://` up to the first `/`, `?` or `#`.  This models what
`urllib.parse.urlparse(url).netloc` returns for such URLs (the scheme test is
case-insensitive because `urlparse` lowercases the scheme). -/
def url_host (url : String) : String :=
  let lower := (strLower url).data
  if "https://".data.isPrefixOf lower then
    ⟨(url.data.drop 8).takeWhile (fun c => !(c == '/' || c == '?' || c == '#'))⟩
  else if "http://".data.isPrefixOf lower then
    ⟨(url.data.drop 7).takeWhile (fun c => !(c == '/' || c == '?' || c == '#'))⟩
  else ""

/-- Scheme test of `validate_url`: `urlparse(url).scheme in ('http', 'https')`. -/
def url_is_http (url : String) : Bool :=
  "http://".data.isPrefixOf (strLower url).data
    || "https://".data.isPrefixOf (strLower url).data

/-- Embeds `validate_url` (yeti.py lines 789-804): nonempty input whose scheme is
`http` or `https` and whose network location is nonempty. -/
def validate_url (url : String) : Bool :=
  if url = "" then false
  else url_is_http url && !(url_host url == "")

/-! ### Facet extraction (yeti.py lines 1206-1241) -/

/-- Body of the inner `for feature in facet.get('features', [])` loop of
`extract_hashtags`: append a `#tag` feature's nonempty tag unless the exact
same string was already collected for this post. -/
def hashtag_feature_step (hashtags : List String) (feature : Feature) : List String :=
  if feature.ftype = "app.bsky.richtext.facet#tag" then
    if feature.tag ≠ "" ∧ feature.tag ∉ hashtags then hashtags ++ [feature.tag]
    else hashtags
  else hashtags

/-- Body of the outer `for facet in record.get('facets', [])` loop of
`extract_hashtags`. -/
def hashtag_facet_step (hashtags : List String) (facet : Facet) : List String :=
  facet.features.foldl hashtag_feature_step hashtags

/-- Embeds `extract_hashtags` (yeti.py lines 1206-1222): walk the facet
features in order, keep `#tag` features with a nonempty tag, de-duplicating by
exact string value. -/
def extract_hashtags (record : PostRecord) : List String :=
  record.facets.foldl hashtag_facet_step []

/-- Body of the inner feature loop of `extract_links`: append a `#link`
feature's uri when it is nonempty, not yet collected, and passes
`validate_url`. -/
def link_feature_step (links : List String) (feature : Feature) : List String :=
  if feature.ftype = "app.bsky.richtext.facet#link" then
    if feature.uri ≠ "" ∧ feature.uri ∉ links ∧ validate_url feature.uri = true then
      links ++ [feature.uri]
    else links
  else links

/-- Body of the outer facet loop of `extract_links`. -/
def link_facet_step (links : List String) (facet : Facet) : List String :=
  facet.features.foldl link_feature_step links

/-- Embeds `extract_links` (yeti.py lines 1225-1241): walk the facet features
in order, keep `#link` features whose uri is nonempty, not yet collected, and
passes `validate_url`. -/
def extract_links (record : PostRecord) : List String :=
  record.facets.foldl link_facet_step []

/-! ### Statistics (yeti.py lines 198-342) -/

/-- Increment one key of a Python `defaultdict(int)` counter. -/
def bump (f : String → Nat) (k : String) : String → Nat :=
  fun x => if x = k then f x + 1 else f x

structure Statistics where
  keywords : List String
  keywords_lower : List String
  start_time : Nat
  end_time : Option Nat
  total_posts : Nat
  displayed_posts : Nat
  keyword_counts : String → Nat
  language_counts : String → Nat
  hashtag_counts : String → Nat
  all_hashtag_counts : String → Nat
  total_urls : Nat

/-- Embeds `Statistics.__init__(keywords)` called at time `now`. -/
def Statistics.init (keywords : List String) (now : Nat) : Statistics where
  keywords := keywords
  keywords_lower := keywords.map strLower
  start_time := now
  end_time := none
  total_posts := 0
  displayed_posts := 0
  keyword_counts := fun _ => 0
  language_counts := fun _ => 0
  hashtag_counts := fun _ => 0
  all_hashtag_counts := fun _ => 0
  total_urls := 0

/-- Embeds `Statistics.record_post`. -/
def Statistics.record_post (s : Statistics) : Statistics :=
  { s with total_posts := s.total_posts + 1 }

/-- Embeds `Statistics.record_language`: one increment per declared tag, else a
single `unknown`. -/
def Statistics.record_language (s : Statistics) (langs : List String) : Statistics :=
  match langs with
  | [] => { s with language_counts := bump s.language_counts "unknown" }
  | _ :: _ =>
    langs.foldl (fun s lang => { s with language_counts := bump s.language_counts lang }) s

/-- Embeds `Statistics.record_displayed`: bump the displayed counter, then bump
each keyword whose lowercase form occurs in the lowercased text. -/
def Statistics.record_displayed (s : Statistics) (text_lower : String)
    (keywords : List String) : Statistics :=
  let s := { s with displayed_posts := s.displayed_posts + 1 }
  keywords.foldl
    (fun s kw =>
      if strContains text_lower (strLower kw) then
        { s with keyword_counts := bump s.keyword_counts kw }
      else s)
    s

/-- Embeds `Statistics.record_hashtags`: counts are keyed by the lowercased tag. -/
def Statistics.record_hashtags (s : Statistics) (hashtags : List String) : Statistics :=
  hashtags.foldl
    (fun s tag => { s with hashtag_counts := bump s.hashtag_counts (strLower tag) }) s

/-- Embeds `Statistics.record_all_hashtags`. -/
def Statistics.record_all_hashtags (s : Statistics) (hashtags : List String) : Statistics :=
  hashtags.foldl
    (fun s tag => { s with all_hashtag_counts := bump s.all_hashtag_counts (strLower tag) }) s

/-- Embeds `Statistics.record_url`. -/
def Statistics.record_url (s : Statistics) : Statistics :=
  { s with total_urls := s.total_urls + 1 }

/-- Embeds `Statistics.finish` called at time `now`. -/
def Statistics.finish (s : Statistics) (now : Nat) : Statistics :=
  { s with end_time := some now }

/-- Embeds `Statistics.get_duration(...).total_seconds()` observed at time `now`. -/
def Statistics.get_duration (s : Statistics) (now : Nat) : Nat :=
  (s.end_time.getD now) - s.start_time

/-! ### Top-N keyword retrieval (yeti.py lines 301-314)

`get_top_keywords` builds `items` by walking `self.keywords` in declaration
order, keeping keywords with a positive count, and returns
`heapq.nlargest(n, items, key=lambda x: x[1])`.  CPython's `nlargest`
decorates each element with its position and keeps, among equal keys, the
earliest elements first (it is documented as equivalent to the stable
`sorted(items, key, reverse=True)[:n]`).  It is therefore embedded as a sort
by the total order "larger count first, earlier position first among equal
counts" over position-decorated items, followed by `take n`. -/

/-- Order used by the `nlargest` model on position-decorated `(keyword, count)`
pairs: strictly larger count first; among equal counts, smaller (earlier)
declaration position first. -/
def nlargestRel (a b : Nat × (String × Nat)) : Prop :=
  b.2.2 < a.2.2 ∨ (a.2.2 = b.2.2 ∧ a.1 ≤ b.1)

instance : DecidableRel nlargestRel := fun a b => by
  unfold nlargestRel; exact inferInstance

instance : IsTotal (Nat × (String × Nat)) nlargestRel where
  total a b := by
    rcases Nat.lt_trichotomy a.2.2 b.2.2 with h | h | h
    · exact Or.inr (Or.inl h)
    · rcases Nat.le_total a.1 b.1 with h' | h'
      · exact Or.inl (Or.inr ⟨h, h'⟩)
      · exact Or.inr (Or.inr ⟨h.symm, h'⟩)
    · exact Or.inl (Or.inl h)

instance : IsTrans (Nat × (String × Nat)) nlargestRel where
  trans a b c hab hbc := by
    rcases hab with h1 | ⟨e1, i1⟩
    · rcases hbc with h2 | ⟨e2, _⟩
      · exact Or.inl (h2.trans h1)
      · exact Or.inl (e2 ▸ h1)
    · rcases hbc with h2 | ⟨e2, i2⟩
      · exact Or.inl (e1 ▸ h2)
      · exact Or.inr ⟨e1.trans e2, i1.trans i2⟩

/-- Model of `heapq.nlargest(n, items, key=lambda x: x[1])`: stable descending
sort by count, then the first `n`. -/
def nlargest_by_count (n : Nat) (items : List (String × Nat)) : List (String × Nat) :=
  ((List.insertionSort nlargestRel items.enum).take n).map Prod.snd

/-- Embeds `Statistics.get_top_keywords`. -/
def Statistics.get_top_keywords (s : Statistics) (n : Nat) : List (String × Nat) :=
  let items := (s.keywords.filter (fun kw => decide (0 < s.keyword_counts kw))).map
    (fun kw => (kw, s.keyword_counts kw))
  nlargest_by_count n items

/-! ### Keyword matching and post processing (yeti.py `display_post`, lines 1562-1640) -/

/-- The `matched` list of `display_post` and `process_post_analyzed`: the
wildcard `*` short-circuits to `['*']`, otherwise the keywords whose
pre-computed lowercase form occurs in the lowercased text. -/
def matched_keywords (keywords keywords_lower : List String) (text_lower : String) :
    List String :=
  if "*" ∈ keywords then ["*"]
  else (keywords.zip keywords_lower).filterMap
    (fun p => if strContains text_lower p.2 then some p.1 else none)

/-- An item of the enrichment queue: `(post_data, keywords, keywords_lower)`
as enqueued at yeti.py line 1629. -/
structure EnrichTask where
  post_data : PostData
  keywords : List String
  keywords_lower : List String
deriving DecidableEq

/-- The enrichment queue `post_queue = queue.Queue()` (yeti.py line 129) is
created without a `maxsize` argument, i.e. unbounded; `put` (line 1629)
appends to the FIFO and never blocks, drops or raises.  The queue is modelled
as the list of queued tasks, oldest first. -/
def post_queue_put (q : List EnrichTask) (task : EnrichTask) : List EnrichTask :=
  q ++ [task]

/-- Statistics effect of `display_post` (yeti.py lines 1592-1622): count the
post, record stream-wide hashtags, stop if the text is empty, match keywords,
and on a match record language, displayed count, keyword counts and matched
hashtags.  (The stats updates do not depend on silent/analyzed mode.) -/
def display_post_stats (stats : Statistics) (post : PostData)
    (keywords keywords_lower : List String) : Statistics :=
  let record := post.record
  let stats := stats.record_post
  let hashtags := extract_hashtags record
  let stats := if hashtags.isEmpty then stats else stats.record_all_hashtags hashtags
  if record.text = "" then stats
  else
    let text_lower := strLower record.text
    let matched := matched_keywords keywords keywords_lower text_lower
    if matched.isEmpty then stats
    else
      let stats := stats.record_language record.langs
      let stats := stats.record_displayed text_lower keywords
      if hashtags.isEmpty then stats else stats.record_hashtags hashtags

/-- Embeds `display_post` (yeti.py lines 1562-1640) as its effect on the
statistics and the enrichment queue: the statistics update of
`display_post_stats`, and — when the text is nonempty, a keyword matched,
silent mode is off and analyzed mode is on — `post_queue.put(...)` of the
`(post_data, keywords, keywords_lower)` task (line 1629). -/
def display_post (stats : Statistics) (q : List EnrichTask) (post : PostData)
    (keywords keywords_lower : List String) (silent_mode analyzed_mode : Bool) :
    Statistics × List EnrichTask :=
  let matched := matched_keywords keywords keywords_lower (strLower post.record.text)
  let enqueue :=
    !(post.record.text == "") && !matched.isEmpty && !silent_mode && analyzed_mode
  (display_post_stats stats post keywords keywords_lower,
   if enqueue then post_queue_put q ⟨post, keywords, keywords_lower⟩ else q)

/-! ### Run lifecycle (yeti.py lines 1515-1559) -/

/-- Observable side effects of `archive_logs_and_reset`.  `writeFile` stands
for creating or writing any file on disk; the other constructors cover
everything else the function does. -/
inductive Effect where
  | consolePrint (what : String)
  | writeFile (name : String)
  | closeFile (name : String)
  | openFile (name : String)
deriving DecidableEq

/-- Effect trace of `archive_logs_and_reset` (yeti.py lines 1515-1531) for a
session whose date-based log is named from `date_str`: `stats.print_report()`
prints the session report to the console only, `log_files.archive()` prints a
console message, `close()` closes the date-based post log, a console message
announces the new cycle, and a fresh `LogFiles` re-opens the same date-based
log in append mode.  No file of any kind is written by this path. -/
def archive_logs_and_reset_effects (date_str : String) : List Effect :=
  [ Effect.consolePrint "session report",
    Effect.consolePrint "log saved message",
    Effect.closeFile ("LOGS/LIVE_" ++ date_str ++ ".log"),
    Effect.consolePrint "new collection cycle",
    Effect.openFile ("LOGS/LIVE_" ++ date_str ++ ".log") ]

/-- Does an effect write (create or append to) a file? -/
def Effect.writesFile : Effect → Bool
  | .writeFile _ => true
  | _ => false

/-- State effect of `archive_logs_and_reset` (yeti.py lines 1515-1531) at time
`now`: finish the current `Statistics` and replace it by a fresh one built
from the same keywords.  Returns `(archived old statistics, new statistics)`. -/
def archive_logs_and_reset (stats : Statistics) (now : Nat) : Statistics × Statistics :=
  let old := stats.finish now
  (old, Statistics.init old.keywords now)

/-- The run limit configuration chosen in `main` (globals `run_time_limit`,
`run_post_limit`, `auto_restart`). -/
structure RunConfig where
  run_time_limit : Option Nat
  run_post_limit : Option Nat
  auto_restart : Bool
deriving DecidableEq

/-- State threaded through the ingestion loop: the active `Statistics` and the
`quit_flag` global. -/
structure LoopState where
  stats : Statistics
  quit_flag : Bool

/-- Condition of the time-limit branch of `check_run_limits`. -/
def time_limit_reached (cfg : RunConfig) (now : Nat) (stats : Statistics) : Bool :=
  match cfg.run_time_limit with
  | some tl => decide (tl ≤ stats.get_duration now)
  | none => false

/-- Condition of the post-limit branch of `check_run_limits`. -/
def post_limit_reached (cfg : RunConfig) (stats : Statistics) : Bool :=
  match cfg.run_post_limit with
  | some pl => decide (pl ≤ stats.displayed_posts)
  | none => false

/-- Embeds `check_run_limits` (yeti.py lines 1534-1559) observed at time `now`.
Returns the updated state and the function's boolean result (`true` = stop the
ingestion loop).  With a reached time limit and auto-restart the statistics are
archived and replaced and ingestion continues (`false`); without auto-restart,
or when the post limit is reached, `quit_flag` is set and `true` is returned.
The post-limit branch never consults `auto_restart`. -/
def check_run_limits (cfg : RunConfig) (now : Nat) (st : LoopState) : LoopState × Bool :=
  if st.quit_flag then (st, true)
  else if time_limit_reached cfg now st.stats then
    if cfg.auto_restart then
      ({ st with stats := (archive_logs_and_reset st.stats now).2 }, false)
    else ({ st with quit_flag := true }, true)
  else if post_limit_reached cfg st.stats then
    ({ st with quit_flag := true }, true)
  else (st, false)

/-- The receive loop of `monitor_jetstream` (yeti.py lines 1716-1727) over a
given sequence of well-formed post-create events: each iteration first checks
`check_run_limits` in the loop condition, then processes one event with
`display_post` and calls `check_run_limits` again.  (The graceful-stop flag
only exits the loop earlier and is irrelevant to the recorded statistics.) -/
def monitor_loop (cfg : RunConfig) (now : Nat) (keywords keywords_lower : List String) :
    LoopState → List PostData → LoopState
  | st, [] => st
  | st, post :: rest =>
    let c1 := check_run_limits cfg now st
    if c1.2 then c1.1
    else
      let st2 := { c1.1 with
        stats := display_post_stats c1.1.stats post keywords keywords_lower }
      let c2 := check_run_limits cfg now st2
      monitor_loop cfg now keywords keywords_lower c2.1 rest

/-! ### Shutdown coordination (yeti.py `check_keyboard`, lines 1654-1669) -/

/-- The two cancellation globals `quit_flag` (Q, immediate) and `graceful_stop`
(S, graceful). -/
structure ShutdownFlags where
  quit_flag : Bool
  graceful_stop : Bool
deriving DecidableEq

/-- Embeds `check_keyboard` over the sequence of poll results (`none` = no key
pressed during that poll).  The loop runs `while not quit_flag and not
graceful_stop`; pressing Q sets `quit_flag` and breaks, pressing S sets
`graceful_stop` and breaks, so no key that arrives after either flag is set is
ever observed. -/
def check_keyboard (flags : ShutdownFlags) : List (Option Char) → ShutdownFlags
  | [] => flags
  | k :: rest =>
    if flags.quit_flag || flags.graceful_stop then flags
    else
      match k with
      | some c =>
        if c = 'q' then { flags with quit_flag := true }
        else if c = 's' then { flags with graceful_stop := true }
        else check_keyboard flags rest
      | none => check_keyboard flags rest

/-! ### Enrichment worker (yeti.py lines 1347-1512) -/

/-- Outcome of one call to the translation collaborator (the HTTP request made
by `translate_to_finnish`). -/
inductive CollabOutcome where
  | ok (translated : String) (detected : String)
  | timeout
  | connError
  | badResponse
deriving DecidableEq

def CollabOutcome.isFailure : CollabOutcome → Bool
  | .ok _ _ => false
  | _ => true

/-- Embeds `translate_to_finnish` (yeti.py lines 883-924): empty or
whitespace-only text short-circuits; otherwise the input is sanitized and the
request issued.  Every failure (timeout, connection error, bad response, bad
JSON) is caught inside the function, which then returns the sanitized original
text with the `unknown` language sentinel. -/
def translate_to_finnish (text : String) (outcome : CollabOutcome) : String × String :=
  if text = "" ∨ strTrim text = "" then (text, "unknown")
  else
    let t := sanitize_text text MAX_TEXT_LENGTH
    match outcome with
    | .ok translated detected => (translated, detected)
    | _ => (t, "unknown")

/-- Outcome of one call to the profile-lookup collaborator. -/
inductive ProfileOutcome where
  | ok (displayName : Option String) (handle : Option String)
  | timeout
  | connError
  | badResponse
deriving DecidableEq

/-- Embeds `fetch_bluesky_profile` (yeti.py lines 1244-1277): every failure is
caught inside and yields `(none, none)`. -/
def fetch_bluesky_profile (did : String) (outcome : ProfileOutcome) :
    Option String × Option String :=
  if did = "" then (none, none)
  else
    match outcome with
    | .ok dn h => (dn, h)
    | _ => (none, none)

/-- The analyzed-post dict built by `process_post_analyzed`, reduced to the
fields the claims are about. -/
structure PostInfo where
  original_text : String
  language_code : String
  author_display_name : String
  matched_keywords : List String
  hashtags : List String
  links : List String
  translation : Option String
deriving DecidableEq

/-- Embeds `process_post_analyzed` (yeti.py lines 1347-1438).  The global
`quit_flag` is sampled twice in the source; the two samples are the parameters
`quit_at_start` and `quit_mid`.  All collaborator failures are handled inside
the collaborator embeddings, and the surrounding `try`/`except` means the
function always returns a value, so the embedding is a total function. -/
def process_post_analyzed (post : PostData) (keywords keywords_lower : List String)
    (quit_at_start quit_mid : Bool) (tOut : CollabOutcome) (pOut : ProfileOutcome) :
    Option PostInfo :=
  let record := post.record
  let text := record.text
  if quit_at_start then none
  else
    let lang_code := record.langs.headD "unknown"
    let profile := fetch_bluesky_profile post.did pOut
    let display_name := profile.1.getD (profile.2.getD post.did)
    let matched := matched_keywords keywords keywords_lower (strLower text)
    let info : PostInfo :=
      { original_text := text
        language_code := lang_code
        author_display_name := display_name
        matched_keywords := matched
        hashtags := extract_hashtags record
        links := extract_links record
        translation := none }
    if quit_mid then some info
    else if lang_code ≠ "fi" ∧ text ≠ "" then
      let tr := translate_to_finnish text tOut
      let info := { info with translation := some tr.1 }
      let info :=
        if tr.2 ≠ "" ∧ tr.2 ≠ "unknown" then { info with language_code := tr.2 }
        else info
      some info
    else some info

/-- One iteration of the main loop of `process_queue_worker` (yeti.py lines
1460-1479) on a dequeued task: run `process_post_analyzed` off the scheduler,
then display the result if it is non-`None` and `quit_flag` is still unset.
Returns the emitted annotated post, if any; any exception is caught by the
worker's `except` clause, so nothing escapes the loop. -/
def worker_process_one (flags : ShutdownFlags) (task : EnrichTask)
    (tOut : CollabOutcome) (pOut : ProfileOutcome) : Option PostInfo :=
  match process_post_analyzed task.post_data task.keywords task.keywords_lower
      flags.quit_flag flags.quit_flag tOut pOut with
  | some info => if flags.quit_flag then none else some info
  | none => none

/-- The final phase of `process_queue_worker` (yeti.py lines 1485-1512): after
the main loop exits, the remaining queue is drained (each task processed and
displayed in FIFO order) only when `graceful_stop` is set and `quit_flag` is
not; on an immediate stop the still-queued tasks are discarded.  Returns the
tasks that get processed. -/
def worker_final_drain (flags : ShutdownFlags) (q : List EnrichTask) : List EnrichTask :=
  if flags.graceful_stop && !flags.quit_flag then q else []

/-! ### Spec-modelled definitions -/

/-- Modelled from the spec: "external links exclude any URL whose host belongs
to the source platform's own domain set" (section 4.2).  The source platform
is Bluesky.  No such domain set exists anywhere in yeti.py; this definition
follows the spec's words and exists only to state that claim against the
code. -/
def spec_platform_domains : List String :=
  ["bsky.app", "bsky.social"]

/-! ### Pipeline traces

The post-processing pipeline mutates the active `Statistics` in exactly two
ways: processing one post-create event through `display_post` (which calls
`record_post` before any match check and `record_displayed` only on a match),
and the limit-triggered `archive_logs_and_reset` which replaces the active
`Statistics` by a fresh one.  A session trace is a list of these operations. -/

inductive PipelineOp where
  | post (p : PostData)
  | reset (now : Nat)

/-- Apply one pipeline operation to the active statistics. -/
def apply_pipeline_op (keywords keywords_lower : List String) (s : Statistics) :
    PipelineOp → Statistics
  | .post p => display_post_stats s p keywords keywords_lower
  | .reset now => (archive_logs_and_reset s now).2

/-- Whether an effect trace contains any file write at all (in particular, a
write of a session report file). -/
def report_file_written (effects : List Effect) : Bool :=
  effects.any Effect.writesFile

/-! ### Concrete fixtures used by witnesses and counterexamples -/

/-- Fixture: a post record whose facets carry the hashtags `Tag` and `tag`
(case-differing) in two features. -/
def recTagCase : PostRecord :=
  ⟨"text", [], "",
    [⟨[⟨"app.bsky.richtext.facet#tag", "Tag", ""⟩,
       ⟨"app.bsky.richtext.facet#tag", "tag", ""⟩]⟩]⟩

/-- Fixture: a post record whose facets carry the exact hashtag string `tag`
twice. -/
def recTagTwice : PostRecord :=
  ⟨"text", [], "",
    [⟨[⟨"app.bsky.richtext.facet#tag", "tag", ""⟩]⟩,
     ⟨[⟨"app.bsky.richtext.facet#tag", "tag", ""⟩]⟩]⟩

/-- Fixture: a post record carrying one link facet whose URL lives on the
source platform's own domain `bsky.app`. -/
def recBskyLink : PostRecord :=
  ⟨"look at this", [], "",
    [⟨[⟨"app.bsky.richtext.facet#link", "", "https://bsky.app/profile/alice"⟩]⟩]⟩

/-- Fixture: a sample enrichment task. -/
def sampleTask : EnrichTask :=
  ⟨⟨"did:plc:alice", ⟨"bonjour tout le monde", ["fr"], "", []⟩⟩, ["bonjour"], ["bonjour"]⟩

/-! ## Helper lemmas about the statistics counters -/

theorem foldl_field {α β : Type} (g : Statistics → β) (f : Statistics → α → Statistics)
    (h : ∀ s a, g (f s a) = g s) :
    ∀ (l : List α) (s : Statistics), g (l.foldl f s) = g s
  | [], _ => rfl
  | a :: l, s => by rw [List.foldl_cons, foldl_field g f h l, h]

theorem record_language_total (s : Statistics) (langs : List String) :
    (s.record_language langs).total_posts = s.total_posts := by
  cases langs with
  | nil => rfl
  | cons a l =>
    exact foldl_field (fun s => s.total_posts)
      (fun s lang => { s with language_counts := bump s.language_counts lang })
      (fun _ _ => rfl) (a :: l) s

theorem record_language_displayed (s : Statistics) (langs : List String) :
    (s.record_language langs).displayed_posts = s.displayed_posts := by
  cases langs with
  | nil => rfl
  | cons a l =>
    exact foldl_field (fun s => s.displayed_posts)
      (fun s lang => { s with language_counts := bump s.language_counts lang })
      (fun _ _ => rfl) (a :: l) s

theorem record_all_hashtags_total (s : Statistics) (tags : List String) :
    (s.record_all_hashtags tags).total_posts = s.total_posts :=
  foldl_field (fun s => s.total_posts)
    (fun s tag => { s with all_hashtag_counts := bump s.all_hashtag_counts (strLower tag) })
    (fun _ _ => rfl) tags s

theorem record_all_hashtags_displayed (s : Statistics) (tags : List String) :
    (s.record_all_hashtags tags).displayed_posts = s.displayed_posts :=
  foldl_field (fun s => s.displayed_posts)
    (fun s tag => { s with all_hashtag_counts := bump s.all_hashtag_counts (strLower tag) })
    (fun _ _ => rfl) tags s

theorem record_hashtags_total (s : Statistics) (tags : List String) :
    (s.record_hashtags tags).total_posts = s.total_posts :=
  foldl_field (fun s => s.total_posts)
    (fun s tag => { s with hashtag_counts := bump s.hashtag_counts (strLower tag) })
    (fun _ _ => rfl) tags s

theorem record_hashtags_displayed (s : Statistics) (tags : List String) :
    (s.record_hashtags tags).displayed_posts = s.displayed_posts :=
  foldl_field (fun s => s.displayed_posts)
    (fun s tag => { s with hashtag_counts := bump s.hashtag_counts (strLower tag) })
    (fun _ _ => rfl) tags s

theorem record_displayed_total (s : Statistics) (tl : String) (kws : List String) :
    (s.record_displayed tl kws).total_posts = s.total_posts :=
  foldl_field (fun s => s.total_posts)
    (fun s kw =>
      if strContains tl (strLower kw) then
        { s with keyword_counts := bump s.keyword_counts kw }
      else s)
    (fun s kw => by dsimp only; split <;> rfl) kws
    { s with displayed_posts := s.displayed_posts + 1 }

theorem record_displayed_displayed (s : Statistics) (tl : String) (kws : List String) :
    (s.record_displayed tl kws).displayed_posts = s.displayed_posts + 1 :=
  foldl_field (fun s => s.displayed_posts)
    (fun s kw =>
      if strContains tl (strLower kw) then
        { s with keyword_counts := bump s.keyword_counts kw }
      else s)
    (fun s kw => by dsimp only; split <;> rfl) kws
    { s with displayed_posts := s.displayed_posts + 1 }

theorem display_post_stats_total (s : Statistics) (post : PostData)
    (kws kls : List String) :
    (display_post_stats s post kws kls).total_posts = s.total_posts + 1 := by
  simp only [display_post_stats]
  split_ifs <;>
    simp [record_all_hashtags_total, record_language_total, record_displayed_total,
      record_hashtags_total, Statistics.record_post]

theorem display_post_stats_displayed_le (s : Statistics) (post : PostData)
    (kws kls : List String) :
    (display_post_stats s post kws kls).displayed_posts ≤ s.displayed_posts + 1 := by
  simp only [display_post_stats]
  split_ifs <;>
    simp [record_all_hashtags_displayed, record_language_displayed,
      record_displayed_displayed, record_hashtags_displayed, Statistics.record_post]

/-! ## Claim C1 -/

/-- Counterexample to C1: the enrichment queue is not bounded at 100 tasks.
Enqueuing one more task into a queue already holding 100 tasks grows it to
101 — the queue size does not stay unchanged and the task is not dropped. -/
theorem c1_bounded_queue_counterexample :
    ¬ (post_queue_put (List.replicate 100 sampleTask) sampleTask).length
        = (List.replicate 100 sampleTask).length := by
  simp [post_queue_put]

/-- C1 (amended): the enrichment queue `post_queue = queue.Queue()` is created
without a size bound.  Enqueue is non-blocking only because the queue is
unbounded: `put` always appends the task, growing the queue by exactly one at
any size; no task is ever dropped (and the code has no skipped counter), and
`display_post` in analyzed mode either leaves the queue unchanged (no match)
or appends exactly the one new task. -/
theorem c1_unbounded_queue_put (q : List EnrichTask) (task : EnrichTask) :
    post_queue_put q task = q ++ [task]
    ∧ (post_queue_put q task).length = q.length + 1
    ∧ ∀ (stats : Statistics) (post : PostData) (kws kls : List String) (sm am : Bool),
        (display_post stats q post kws kls sm am).2 = q
        ∨ (display_post stats q post kws kls sm am).2 = q ++ [⟨post, kws, kls⟩] := by
  refine ⟨rfl, by simp [post_queue_put], ?_⟩
  intro stats post kws kls sm am
  simp only [display_post]
  split
  · exact Or.inr rfl
  · exact Or.inl rfl

/-! ## Claim C2 -/

theorem pipeline_inv_aux (keywords keywords_lower : List String) :
    ∀ (ops : List PipelineOp) (s : Statistics),
      s.displayed_posts ≤ s.total_posts →
      (ops.foldl (apply_pipeline_op keywords keywords_lower) s).displayed_posts
        ≤ (ops.foldl (apply_pipeline_op keywords keywords_lower) s).total_posts
  | [], s, h => h
  | op :: ops, s, h => by
    rw [List.foldl_cons]
    apply pipeline_inv_aux
    cases op with
    | post p =>
      have ht := display_post_stats_total s p keywords keywords_lower
      have hd := display_post_stats_displayed_le s p keywords keywords_lower
      simp only [apply_pipeline_op]
      omega
    | reset now =>
      simp [apply_pipeline_op, archive_logs_and_reset, Statistics.finish, Statistics.init]

/-- C2 (confirmed): along every pipeline trace — post-create events processed
by `display_post` (which calls `record_post` before any match check and
`record_displayed` only on a match) interleaved with archive-and-reset
operations that replace the active `Statistics` — the invariant
`displayed_posts ≤ total_posts` holds at every observation point, in
particular immediately after every archive-and-reset. -/
theorem c2_matched_le_total (keywords keywords_lower : List String) (t0 : Nat)
    (ops : List PipelineOp) :
    (ops.foldl (apply_pipeline_op keywords keywords_lower)
        (Statistics.init keywords t0)).displayed_posts
      ≤ (ops.foldl (apply_pipeline_op keywords keywords_lower)
          (Statistics.init keywords t0)).total_posts :=
  pipeline_inv_aux keywords keywords_lower ops _ (Nat.le_refl 0)

/-! ## Claim C3 -/

/-- Counterexample to C3: with both flags clear, pressing S and then Q leaves
`quit_flag` unset — `check_keyboard` breaks out of its polling loop as soon as
`graceful_stop` is set, so the later IMMEDIATE request is never observed — and
the worker's final phase then drains the still-queued task instead of
discarding it. -/
theorem c3_escalation_counterexample :
    (check_keyboard ⟨false, false⟩ [some 's', some 'q']).quit_flag = false
    ∧ worker_final_drain (check_keyboard ⟨false, false⟩ [some 's', some 'q'])
        [sampleTask] = [sampleTask] := by
  decide

/-- C3 (amended): once a GRACEFUL stop request (S key) is active, the keyboard
checker has exited its polling loop, so a later IMMEDIATE stop request (Q key)
is never observed: whatever keys follow, `quit_flag` stays `false`, and the
worker's final phase therefore drains every still-queued enrichment task
instead of discarding the queue. -/
theorem c3_graceful_blocks_later_q (rest : List (Option Char)) (tasks : List EnrichTask) :
    check_keyboard ⟨false, false⟩ (some 's' :: rest) = ⟨false, true⟩
    ∧ worker_final_drain ⟨false, true⟩ tasks = tasks := by
  constructor
  · simp [check_keyboard]
  · simp [worker_final_drain]

/-! ## Claim C7 -/

/-- C7 (confirmed): when the keyword set contains the wildcard `*`, processing
any event increments `total_posts` by one, and increments `displayed_posts` by
one exactly when the event's text is nonempty — empty-text events are counted
in `total_posts` but never matched. -/
theorem c7_wildcard_matches_nonempty (s : Statistics) (post : PostData)
    (keywords keywords_lower : List String) (h : "*" ∈ keywords) :
    (display_post_stats s post keywords keywords_lower).total_posts = s.total_posts + 1
    ∧ (display_post_stats s post keywords keywords_lower).displayed_posts
        = s.displayed_posts + (if post.record.text = "" then 0 else 1) := by
  refine ⟨display_post_stats_total s post keywords keywords_lower, ?_⟩
  simp only [display_post_stats, matched_keywords, if_pos h]
  split_ifs <;>
    simp_all [record_all_hashtags_displayed, record_language_displayed,
      record_displayed_displayed, record_hashtags_displayed, Statistics.record_post]

/-- Witness for C7 at a concrete input: with keyword set `["*"]` and the
sample post (nonempty text) the displayed counter goes from 0 to 1 and the
total counter from 0 to 1. -/
theorem c7_wildcard_matches_nonempty_witness :
    (display_post_stats (Statistics.init ["*"] 0)
        ⟨"did:plc:alice", ⟨"anything at all", [], "", []⟩⟩ ["*"] ["*"]).total_posts
      = (Statistics.init ["*"] 0).total_posts + 1
    ∧ (display_post_stats (Statistics.init ["*"] 0)
        ⟨"did:plc:alice", ⟨"anything at all", [], "", []⟩⟩ ["*"] ["*"]).displayed_posts
      = (Statistics.init ["*"] 0).displayed_posts
        + (if ("anything at all" : String) = "" then 0 else 1) :=
  c7_wildcard_matches_nonempty (Statistics.init ["*"] 0)
    ⟨"did:plc:alice", ⟨"anything at all", [], "", []⟩⟩ ["*"] ["*"] (by decide)

/-! ## Claim C10 -/

theorem hashtag_feature_step_nodup (acc : List String) (f : Feature)
    (h : acc.Nodup) : (hashtag_feature_step acc f).Nodup := by
  unfold hashtag_feature_step
  split_ifs with h1 h2
  · exact List.Nodup.append h (List.nodup_singleton _)
      (by simpa using fun hmem => h2.2 hmem)
  · exact h
  · exact h

theorem hashtag_facet_step_nodup (f : Facet) :
    ∀ (acc : List String), acc.Nodup → (hashtag_facet_step acc f).Nodup := by
  unfold hashtag_facet_step
  generalize f.features = feats
  induction feats with
  | nil => exact fun acc h => h
  | cons x xs ih =>
    intro acc h
    exact ih _ (hashtag_feature_step_nodup acc x h)

theorem extract_hashtags_nodup (record : PostRecord) : (extract_hashtags record).Nodup := by
  unfold extract_hashtags
  generalize record.facets = fs
  suffices h : ∀ (acc : List String), acc.Nodup → (fs.foldl hashtag_facet_step acc).Nodup from
    h [] (List.nodup_nil)
  induction fs with
  | nil => exact fun acc h => h
  | cons x xs ih => exact fun acc h => ih _ (hashtag_facet_step_nodup x acc h)

/-- C10 (confirmed): within one post, hashtag de-duplication in
`extract_hashtags` is by exact (case-sensitive) string equality — the
extracted list is always duplicate-free as exact strings — while
`record_hashtags` lowercases each tag before counting.  Hence a post whose
facets carry both `Tag` and `tag` contributes 2 to the count of `tag`, whereas
a post carrying the exact string `tag` twice contributes 1. -/
theorem c10_hashtag_dedup_vs_count :
    (∀ record : PostRecord, (extract_hashtags record).Nodup)
    ∧ extract_hashtags recTagCase = ["Tag", "tag"]
    ∧ ((Statistics.init [] 0).record_hashtags
        (extract_hashtags recTagCase)).hashtag_counts "tag" = 2
    ∧ extract_hashtags recTagTwice = ["tag"]
    ∧ ((Statistics.init [] 0).record_hashtags
        (extract_hashtags recTagTwice)).hashtag_counts "tag" = 1 :=
  ⟨extract_hashtags_nodup, by decide, by decide, by decide, by decide⟩

/-! ## Claim C4 -/

/-- Counterexample to C4: the archive-and-reset path performs no file write at
all — `print_report` writes the session report to the console only and
`LogFiles.archive` merely prints a message — so the old session's report file
does not exist (let alone being non-empty). -/
theorem c4_report_file_counterexample :
    report_file_written (archive_logs_and_reset_effects "2026-10-12") = false := by
  decide

/-- C4 (amended): for a time-limited run with auto-restart, once the elapsed
time reaches the limit, `check_run_limits` archives the old `Statistics`
(setting its end time, exactly once in this transition) and immediately
installs a fresh `Statistics` with `total_posts = 0`, the same keywords and no
end time, returning `false` so ingestion is not halted; the old session's
report is printed to the console, and no report file is written. -/
theorem c4_time_limit_restart (cfg : RunConfig) (tl : Nat)
    (hT : cfg.run_time_limit = some tl) (hA : cfg.auto_restart = true)
    (now : Nat) (st : LoopState) (hq : st.quit_flag = false)
    (hreach : tl ≤ st.stats.get_duration now) :
    check_run_limits cfg now st
      = ({ st with stats := Statistics.init st.stats.keywords now }, false)
    ∧ (archive_logs_and_reset st.stats now).1.end_time = some now
    ∧ (archive_logs_and_reset st.stats now).2.total_posts = 0
    ∧ (archive_logs_and_reset st.stats now).2.keywords = st.stats.keywords
    ∧ (archive_logs_and_reset st.stats now).2.end_time = none
    ∧ ∀ d : String,
        Effect.consolePrint "session report" ∈ archive_logs_and_reset_effects d
        ∧ report_file_written (archive_logs_and_reset_effects d) = false := by
  refine ⟨?_, rfl, rfl, rfl, rfl, ?_⟩
  · simp [check_run_limits, hq, time_limit_reached, hT, hreach, hA,
      archive_logs_and_reset, Statistics.finish, Statistics.init]
  · intro d
    exact ⟨by simp [archive_logs_and_reset_effects],
      by simp [report_file_written, archive_logs_and_reset_effects, Effect.writesFile]⟩

/-- Witness for C4 at a concrete input: a five-second limit with auto-restart,
checked ten seconds into the session. -/
theorem c4_time_limit_restart_witness :
    check_run_limits ⟨some 5, none, true⟩ 10 ⟨Statistics.init ["k"] 0, false⟩
      = (⟨Statistics.init ["k"] 10, false⟩, false)
    ∧ (archive_logs_and_reset (Statistics.init ["k"] 0) 10).1.end_time = some 10
    ∧ (archive_logs_and_reset (Statistics.init ["k"] 0) 10).2.total_posts = 0
    ∧ (archive_logs_and_reset (Statistics.init ["k"] 0) 10).2.keywords
        = (Statistics.init ["k"] 0).keywords
    ∧ (archive_logs_and_reset (Statistics.init ["k"] 0) 10).2.end_time = none
    ∧ ∀ d : String,
        Effect.consolePrint "session report" ∈ archive_logs_and_reset_effects d
        ∧ report_file_written (archive_logs_and_reset_effects d) = false :=
  c4_time_limit_restart ⟨some 5, none, true⟩ 5 rfl rfl 10
    ⟨Statistics.init ["k"] 0, false⟩ rfl (by decide)

/-! ## Claim C5 -/

theorem check_run_limits_quit (cfg : RunConfig) (now : Nat) (st : LoopState)
    (hq : st.quit_flag = true) :
    check_run_limits cfg now st = (st, true) := by
  simp [check_run_limits, hq]

theorem check_run_limits_post_hit (cfg : RunConfig) (L : Nat)
    (hT : cfg.run_time_limit = none) (hL : cfg.run_post_limit = some L)
    (now : Nat) (st : LoopState) (hq : st.quit_flag = false)
    (hlim : L ≤ st.stats.displayed_posts) :
    check_run_limits cfg now st = ({ st with quit_flag := true }, true) := by
  simp [check_run_limits, hq, time_limit_reached, hT, post_limit_reached, hL, hlim]

theorem check_run_limits_post_miss (cfg : RunConfig) (L : Nat)
    (hT : cfg.run_time_limit = none) (hL : cfg.run_post_limit = some L)
    (now : Nat) (st : LoopState) (hq : st.quit_flag = false)
    (hlim : ¬ L ≤ st.stats.displayed_posts) :
    check_run_limits cfg now st = (st, false) := by
  simp [check_run_limits, hq, time_limit_reached, hT, post_limit_reached, hL, hlim]

theorem c5_aux (cfg : RunConfig) (L : Nat)
    (hT : cfg.run_time_limit = none) (hL : cfg.run_post_limit = some L)
    (now : Nat) (kws kls : List String) :
    ∀ (evs : List PostData) (st : LoopState),
      st.stats.displayed_posts ≤ L →
      (L ≤ st.stats.displayed_posts → st.quit_flag = true) →
      (monitor_loop cfg now kws kls st evs).stats.displayed_posts ≤ L
      ∧ (L ≤ (monitor_loop cfg now kws kls st evs).stats.displayed_posts →
          (monitor_loop cfg now kws kls st evs).quit_flag = true)
  | [], st, h1, h2 => ⟨h1, h2⟩
  | p :: rest, st, h1, h2 => by
    rw [monitor_loop]
    cases hq : st.quit_flag with
    | true =>
      rw [check_run_limits_quit cfg now st hq]
      exact ⟨h1, fun _ => hq⟩
    | false =>
      by_cases hlim : L ≤ st.stats.displayed_posts
      · rw [check_run_limits_post_hit cfg L hT hL now st hq hlim]
        exact ⟨h1, fun _ => rfl⟩
      · rw [check_run_limits_post_miss cfg L hT hL now st hq hlim]
        simp only [Bool.false_eq_true, if_false]
        have hd2 := display_post_stats_displayed_le st.stats p kws kls
        by_cases hlim2 :
            L ≤ (display_post_stats st.stats p kws kls).displayed_posts
        · rw [check_run_limits_post_hit cfg L hT hL now
            { st with stats := display_post_stats st.stats p kws kls } hq hlim2]
          exact c5_aux cfg L hT hL now kws kls rest _ (by dsimp only; omega)
            (fun _ => rfl)
        · rw [check_run_limits_post_miss cfg L hT hL now
            { st with stats := display_post_stats st.stats p kws kls } hq hlim2]
          exact c5_aux cfg L hT hL now kws kls rest _ (by dsimp only; omega)
            (fun h => absurd h hlim2)

/-- C5 (confirmed): with a post-count limit `L` set (and no time limit — the
two limit kinds are mutually exclusive per run), the ingestion loop never
matches more than `L` posts, and as soon as `displayed_posts` reaches `L` the
run state has `quit_flag` set (TERMINATED); moreover the limit check behaves
identically for every value of `auto_restart`, so a post-limit run never
archives and restarts. -/
theorem c5_post_limit_terminates (cfg : RunConfig) (L : Nat)
    (hT : cfg.run_time_limit = none) (hL : cfg.run_post_limit = some L)
    (hpos : 0 < L) (now t0 : Nat) (kws kls : List String) (evs : List PostData) :
    (monitor_loop cfg now kws kls ⟨Statistics.init kws t0, false⟩ evs).stats.displayed_posts
        ≤ L
    ∧ (L ≤ (monitor_loop cfg now kws kls
          ⟨Statistics.init kws t0, false⟩ evs).stats.displayed_posts →
        (monitor_loop cfg now kws kls ⟨Statistics.init kws t0, false⟩ evs).quit_flag = true)
    ∧ ∀ (b : Bool) (now' : Nat) (st : LoopState),
        check_run_limits { cfg with auto_restart := b } now' st
          = check_run_limits cfg now' st := by
  have h := c5_aux cfg L hT hL now kws kls evs ⟨Statistics.init kws t0, false⟩
    (by simp [Statistics.init]) (by simp [Statistics.init]; omega)
  refine ⟨h.1, h.2, ?_⟩
  intro b now' st
  cases hq : st.quit_flag with
  | true =>
    rw [check_run_limits_quit { cfg with auto_restart := b } now' st hq,
      check_run_limits_quit cfg now' st hq]
  | false =>
    by_cases hlim : L ≤ st.stats.displayed_posts
    · rw [check_run_limits_post_hit { cfg with auto_restart := b } L hT hL now' st hq hlim,
        check_run_limits_post_hit cfg L hT hL now' st hq hlim]
    · rw [check_run_limits_post_miss { cfg with auto_restart := b } L hT hL now' st hq hlim,
        check_run_limits_post_miss cfg L hT hL now' st hq hlim]

/-- Witness for C5 at a concrete input: limit 1, keyword set `["*"]`, two
matching events; after the run the displayed count is at most 1 and the run
has quit, and the limit check ignores `auto_restart`. -/
theorem c5_post_limit_terminates_witness :
    (monitor_loop ⟨none, some 1, true⟩ 0 ["*"] ["*"] ⟨Statistics.init ["*"] 0, false⟩
        [⟨"d", ⟨"x", [], "", []⟩⟩, ⟨"d", ⟨"y", [], "", []⟩⟩]).stats.displayed_posts ≤ 1
    ∧ (1 ≤ (monitor_loop ⟨none, some 1, true⟩ 0 ["*"] ["*"]
          ⟨Statistics.init ["*"] 0, false⟩
          [⟨"d", ⟨"x", [], "", []⟩⟩, ⟨"d", ⟨"y", [], "", []⟩⟩]).stats.displayed_posts →
        (monitor_loop ⟨none, some 1, true⟩ 0 ["*"] ["*"]
          ⟨Statistics.init ["*"] 0, false⟩
          [⟨"d", ⟨"x", [], "", []⟩⟩, ⟨"d", ⟨"y", [], "", []⟩⟩]).quit_flag = true)
    ∧ ∀ (b : Bool) (now' : Nat) (st : LoopState),
        check_run_limits ⟨none, some 1, b⟩ now' st
          = check_run_limits ⟨none, some 1, true⟩ now' st :=
  c5_post_limit_terminates ⟨none, some 1, true⟩ 1 rfl rfl (by decide) 0 0 ["*"] ["*"]
    [⟨"d", ⟨"x", [], "", []⟩⟩, ⟨"d", ⟨"y", [], "", []⟩⟩]

/-! ## Claim C8 -/

theorem translate_failure_unknown (text : String) (tOut : CollabOutcome)
    (hf : tOut.isFailure = true) :
    (translate_to_finnish text tOut).2 = "unknown" := by
  unfold translate_to_finnish
  split_ifs with h
  · rfl
  · cases tOut with
    | ok tr d => simp [CollabOutcome.isFailure] at hf
    | timeout => rfl
    | connError => rfl
    | badResponse => rfl

/-- C8 (confirmed): when the translation collaborator fails (timeout,
connection error or bad response), the call returns the `unknown` language
sentinel, and the worker still emits an annotated post: its `original_text`
is the post's original text, its language code is the post's declared tag (or
`unknown` when none is declared — never overwritten by a failed detection),
and when translation was attempted the translation field carries the failure
fallback (the original text, sanitized).  The embedding is total, so no
exception escapes the worker loop. -/
theorem c8_collab_failure_still_emits (task : EnrichTask) (tOut : CollabOutcome)
    (pOut : ProfileOutcome) (hfail : tOut.isFailure = true) :
    (translate_to_finnish task.post_data.record.text tOut).2 = "unknown"
    ∧ ∃ info : PostInfo,
        worker_process_one ⟨false, false⟩ task tOut pOut = some info
        ∧ info.original_text = task.post_data.record.text
        ∧ info.language_code = task.post_data.record.langs.headD "unknown"
        ∧ (task.post_data.record.langs.headD "unknown" ≠ "fi"
              ∧ task.post_data.record.text ≠ "" →
            info.translation
              = some (translate_to_finnish task.post_data.record.text tOut).1) := by
  have h2 := translate_failure_unknown task.post_data.record.text tOut hfail
  refine ⟨h2, ?_⟩
  unfold worker_process_one process_post_analyzed
  simp only [Bool.false_eq_true, if_false]
  by_cases hcond : (task.post_data.record.langs.headD "unknown" ≠ "fi"
      ∧ task.post_data.record.text ≠ "")
  · rw [if_pos hcond, h2]
    exact ⟨_, rfl, rfl, rfl, fun _ => rfl⟩
  · rw [if_neg hcond]
    exact ⟨_, rfl, rfl, rfl, fun h => absurd h hcond⟩

/-- Witness for C8 at a concrete input: the sample French task with a
translation timeout and a profile timeout. -/
theorem c8_collab_failure_still_emits_witness :
    (translate_to_finnish sampleTask.post_data.record.text CollabOutcome.timeout).2
        = "unknown"
    ∧ ∃ info : PostInfo,
        worker_process_one ⟨false, false⟩ sampleTask CollabOutcome.timeout
            ProfileOutcome.timeout = some info
        ∧ info.original_text = sampleTask.post_data.record.text
        ∧ info.language_code = sampleTask.post_data.record.langs.headD "unknown"
        ∧ (sampleTask.post_data.record.langs.headD "unknown" ≠ "fi"
              ∧ sampleTask.post_data.record.text ≠ "" →
            info.translation
              = some (translate_to_finnish sampleTask.post_data.record.text
                  CollabOutcome.timeout).1) :=
  c8_collab_failure_still_emits sampleTask CollabOutcome.timeout
    ProfileOutcome.timeout (by decide)

/-! ## Claim C6 -/

theorem link_feature_step_inv (P : String → Prop) (f : Feature)
    (hP : f.ftype = "app.bsky.richtext.facet#link" → validate_url f.uri = true → P f.uri)
    (acc : List String) (h1 : acc.Nodup) (h2 : ∀ u ∈ acc, P u) :
    (link_feature_step acc f).Nodup ∧ ∀ u ∈ link_feature_step acc f, P u := by
  unfold link_feature_step
  split_ifs with ht hc
  · constructor
    · refine List.Nodup.append h1 (List.nodup_singleton _) ?_
      intro a ha hb
      rw [List.mem_singleton] at hb
      exact hc.2.1 (hb ▸ ha)
    · intro u hu
      rcases List.mem_append.1 hu with hu | hu
      · exact h2 u hu
      · rw [List.mem_singleton] at hu
        exact hu ▸ hP ht hc.2.2
  · exact ⟨h1, h2⟩
  · exact ⟨h1, h2⟩

theorem link_features_fold_inv (P : String → Prop) :
    ∀ (feats : List Feature),
      (∀ f ∈ feats,
        f.ftype = "app.bsky.richtext.facet#link" → validate_url f.uri = true → P f.uri) →
      ∀ (acc : List String), acc.Nodup → (∀ u ∈ acc, P u) →
      (feats.foldl link_feature_step acc).Nodup
      ∧ ∀ u ∈ feats.foldl link_feature_step acc, P u
  | [], _, acc, h1, h2 => ⟨h1, h2⟩
  | f :: fs, hP, acc, h1, h2 => by
    rw [List.foldl_cons]
    have step := link_feature_step_inv P f (hP f (List.mem_cons_self f fs)) acc h1 h2
    exact link_features_fold_inv P fs (fun g hg => hP g (List.mem_cons_of_mem f hg))
      _ step.1 step.2

theorem link_facets_fold_inv (P : String → Prop) :
    ∀ (facets : List Facet),
      (∀ fc ∈ facets, ∀ f ∈ fc.features,
        f.ftype = "app.bsky.richtext.facet#link" → validate_url f.uri = true → P f.uri) →
      ∀ (acc : List String), acc.Nodup → (∀ u ∈ acc, P u) →
      (facets.foldl link_facet_step acc).Nodup
      ∧ ∀ u ∈ facets.foldl link_facet_step acc, P u
  | [], _, acc, h1, h2 => ⟨h1, h2⟩
  | fc :: fcs, hP, acc, h1, h2 => by
    rw [List.foldl_cons]
    have step := link_features_fold_inv P fc.features (hP fc (List.mem_cons_self fc fcs))
      acc h1 h2
    exact link_facets_fold_inv P fcs (fun g hg => hP g (List.mem_cons_of_mem fc hg))
      _ step.1 step.2

/-- C6 (amended): link extraction returns only URLs found in `#link` features
of the post's structured annotation (facet) list, de-duplicated by value
within the post, each passing `validate_url` (http/https scheme with a
nonempty host).  No platform-domain exclusion exists in the code, so
platform-internal URLs are counted as external links (see the
counterexample). -/
theorem c6_links_from_facets_dedup (record : PostRecord) :
    (extract_links record).Nodup
    ∧ ∀ u ∈ extract_links record,
        validate_url u = true
        ∧ ∃ facet ∈ record.facets, ∃ feat ∈ facet.features,
            feat.ftype = "app.bsky.richtext.facet#link" ∧ feat.uri = u := by
  unfold extract_links
  refine link_facets_fold_inv _ record.facets ?_ [] List.nodup_nil (by simp)
  intro fc hfc f hf ht hv
  exact ⟨hv, fc, hfc, f, hf, ht, rfl⟩

/-- Counterexample to C6: a post carrying the platform-internal URL
`https://bsky.app/profile/alice` — whose host `bsky.app` belongs to the source
platform's own domain set — is returned by `extract_links` instead of being
excluded. -/
theorem c6_platform_url_counterexample :
    extract_links recBskyLink = ["https://bsky.app/profile/alice"]
    ∧ url_host "https://bsky.app/profile/alice" ∈ spec_platform_domains := by
  decide

/-! ## Claim C9 -/

theorem nodup_pairwise_indexOf {α : Type} [DecidableEq α] (l : List α) (h : l.Nodup) :
    l.Pairwise (fun a b => List.indexOf a l < List.indexOf b l) := by
  rw [List.pairwise_iff_getElem]
  intro i j hi hj hij
  rw [List.indexOf_getElem h i hi, List.indexOf_getElem h j hj]
  exact hij

/-- C9 (confirmed): for every keyword-count state (with distinct declared
keywords) and every `n`, `get_top_keywords n` returns `min n k` entries, where
`k` is the number of keywords with positive count; every returned entry is a
declared keyword paired with its positive count; the entries are sorted by
count descending with ties broken by declaration order (smaller index in the
keyword list first); and every positive-count keyword left out has a count no
larger than any returned entry's count. -/
theorem c9_top_keywords_sorted_stable (s : Statistics) (n : Nat)
    (hnd : s.keywords.Nodup) :
    (s.get_top_keywords n).length
        = min n ((s.keywords.filter (fun kw => decide (0 < s.keyword_counts kw))).length)
    ∧ (∀ p ∈ s.get_top_keywords n,
        p.1 ∈ s.keywords ∧ p.2 = s.keyword_counts p.1 ∧ 0 < p.2)
    ∧ (s.get_top_keywords n).Pairwise (fun p q =>
        q.2 < p.2
        ∨ (p.2 = q.2 ∧ List.indexOf p.1 s.keywords < List.indexOf q.1 s.keywords))
    ∧ ∀ kw ∈ s.keywords, 0 < s.keyword_counts kw →
        kw ∉ (s.get_top_keywords n).map Prod.fst →
        ∀ p ∈ s.get_top_keywords n, s.keyword_counts kw ≤ p.2 := by
  set items := (s.keywords.filter (fun kw => decide (0 < s.keyword_counts kw))).map
    (fun kw => (kw, s.keyword_counts kw)) with hitems
  have htop : s.get_top_keywords n
      = ((List.insertionSort nlargestRel items.enum).take n).map Prod.snd := rfl
  set S := List.insertionSort nlargestRel items.enum with hSdef
  have hperm : S.Perm items.enum := List.perm_insertionSort _ _
  have hsorted : List.Pairwise nlargestRel S := List.sorted_insertionSort nlargestRel _
  have hmemS : ∀ x ∈ S, ∃ hx : x.1 < items.length, items[x.1] = x.2 := by
    intro x hx
    have hxE : x ∈ items.enum := hperm.mem_iff.1 hx
    obtain ⟨i, v⟩ := x
    have h := List.mk_mem_enum_iff_getElem?.1 hxE
    rw [List.getElem?_eq_some] at h
    exact h
  have hmem_items : ∀ v ∈ items, v.1 ∈ s.keywords ∧ v.2 = s.keyword_counts v.1 ∧ 0 < v.2 := by
    intro v hv
    rw [hitems, List.mem_map] at hv
    obtain ⟨kw, hkw, rfl⟩ := hv
    rw [List.mem_filter] at hkw
    exact ⟨hkw.1, rfl, by simpa using hkw.2⟩
  have part2 : ∀ p ∈ s.get_top_keywords n,
      p.1 ∈ s.keywords ∧ p.2 = s.keyword_counts p.1 ∧ 0 < p.2 := by
    intro p hp
    rw [htop, List.mem_map] at hp
    obtain ⟨x, hx, rfl⟩ := hp
    have hxS : x ∈ S := (List.take_sublist n S).subset hx
    obtain ⟨hlt, heq⟩ := hmemS x hxS
    exact hmem_items _ (heq ▸ List.getElem_mem hlt)
  have hidx : items.Pairwise (fun p q =>
      List.indexOf p.1 s.keywords < List.indexOf q.1 s.keywords) := by
    have h0 := nodup_pairwise_indexOf s.keywords hnd
    have h1 : (s.keywords.filter (fun kw => decide (0 < s.keyword_counts kw))).Pairwise
        (fun a b => List.indexOf a s.keywords < List.indexOf b s.keywords) :=
      List.Pairwise.sublist (List.filter_sublist s.keywords) h0
    rw [hitems]
    exact List.pairwise_map.2 h1
  have hidx_get := List.pairwise_iff_getElem.1 hidx
  have hfst : S.Pairwise (fun a b => a.1 ≠ b.1) := by
    have h1 : (S.map Prod.fst).Nodup :=
      ((hperm.map Prod.fst).symm).nodup (List.nodup_enum_map_fst items)
    exact List.pairwise_map.1 h1
  have hStarget : S.Pairwise (fun a b =>
      b.2.2 < a.2.2
      ∨ (a.2.2 = b.2.2
          ∧ List.indexOf a.2.1 s.keywords < List.indexOf b.2.1 s.keywords)) := by
    refine List.Pairwise.imp_of_mem ?_ (hsorted.and hfst)
    intro a b ha hb hab
    rcases hab.1 with h | ⟨he, hle⟩
    · exact Or.inl h
    · have hlt : a.1 < b.1 := lt_of_le_of_ne hle hab.2
      obtain ⟨hia, heqa⟩ := hmemS a ha
      obtain ⟨hib, heqb⟩ := hmemS b hb
      have hkey := hidx_get a.1 b.1 hia hib hlt
      rw [heqa, heqb] at hkey
      exact Or.inr ⟨he, hkey⟩
  have part3 : (s.get_top_keywords n).Pairwise (fun (p q : String × Nat) =>
      q.2 < p.2
      ∨ (p.2 = q.2 ∧ List.indexOf p.1 s.keywords < List.indexOf q.1 s.keywords)) := by
    rw [htop]
    exact List.pairwise_map.2 (List.Pairwise.sublist (List.take_sublist n S) hStarget)
  refine ⟨?_, part2, part3, ?_⟩
  · rw [htop, List.length_map, List.length_take, hperm.length_eq, List.enum_length,
      hitems, List.length_map]
  · intro kw hkw hpos hnot p hp
    have hv : (kw, s.keyword_counts kw) ∈ items := by
      rw [hitems, List.mem_map]
      exact ⟨kw, List.mem_filter.2 ⟨hkw, by simpa using hpos⟩, rfl⟩
    obtain ⟨i, hi, hieq⟩ := List.mem_iff_getElem.1 hv
    have hE : (i, (kw, s.keyword_counts kw)) ∈ items.enum :=
      List.mk_mem_enum_iff_getElem?.2 (by rw [List.getElem?_eq_some]; exact ⟨hi, hieq⟩)
    have hSmem : (i, (kw, s.keyword_counts kw)) ∈ S := hperm.mem_iff.2 hE
    have hsplit : S.take n ++ S.drop n = S := List.take_append_drop n S
    have hdrop : (i, (kw, s.keyword_counts kw)) ∈ S.drop n := by
      rcases List.mem_append.1 (by rw [hsplit]; exact hSmem) with h | h
      · exfalso
        apply hnot
        rw [htop, List.map_map, List.mem_map]
        exact ⟨(i, (kw, s.keyword_counts kw)), h, rfl⟩
      · exact h
    have hcross := (List.pairwise_append.1 (by rw [hsplit]; exact hStarget)).2.2
    rw [htop, List.mem_map] at hp
    obtain ⟨x, hx, rfl⟩ := hp
    rcases hcross x hx _ hdrop with h | ⟨he, _⟩
    · exact Nat.le_of_lt h
    · exact Nat.le_of_eq he.symm

/-- Witness for C9 at a concrete input: keywords `a`, `b`, `c` with counts
2, 2, 5 and `n = 2`. -/
theorem c9_top_keywords_sorted_stable_witness :
    ({ Statistics.init ["a", "b", "c"] 0 with
        keyword_counts := fun k => if k = "c" then 5 else 2 }.get_top_keywords 2).length
        = min 2 ((["a", "b", "c"].filter (fun kw =>
            decide (0 < (fun k => if k = "c" then 5 else 2 : String → Nat) kw))).length)
    ∧ (∀ p ∈ ({ Statistics.init ["a", "b", "c"] 0 with
          keyword_counts := fun k => if k = "c" then 5 else 2 }.get_top_keywords 2),
        p.1 ∈ ["a", "b", "c"]
        ∧ p.2 = (fun k => if k = "c" then 5 else 2 : String → Nat) p.1 ∧ 0 < p.2)
    ∧ ({ Statistics.init ["a", "b", "c"] 0 with
          keyword_counts := fun k => if k = "c" then 5 else 2 }.get_top_keywords 2).Pairwise
        (fun (p q : String × Nat) => q.2 < p.2
          ∨ (p.2 = q.2
              ∧ List.indexOf p.1 ["a", "b", "c"] < List.indexOf q.1 ["a", "b", "c"]))
    ∧ ∀ kw ∈ ["a", "b", "c"],
        0 < (fun k => if k = "c" then 5 else 2 : String → Nat) kw →
        kw ∉ ({ Statistics.init ["a", "b", "c"] 0 with
            keyword_counts := fun k => if k = "c" then 5 else 2 }.get_top_keywords 2).map
          Prod.fst →
        ∀ p ∈ ({ Statistics.init ["a", "b", "c"] 0 with
            keyword_counts := fun k => if k = "c" then 5 else 2 }.get_top_keywords 2),
          (fun k => if k = "c" then 5 else 2 : String → Nat) kw ≤ p.2 :=
  c9_top_keywords_sorted_stable
    { Statistics.init ["a", "b", "c"] 0 with
        keyword_counts := fun k => if k = "c" then 5 else 2 } 2 (by decide)

end Yeti
